import Mathlib

/-!
# Verification of the ThinkcellBuilder library

A shallow embedding of `thinkcellbuilder/thinkcellbuilder.py` in Lean 4.

Python raw values that can reach `Template.transform_input` are modelled
by the inductive type `PyValue`; Python exceptions are modelled by the
inductive type `Err` together with `Err.kind`, mapping each error to the
Python exception class the source raises (`ValueError`, `RuntimeError`,
`TypeError`).  Methods that mutate `self` and may raise are embedded as
functions returning `Except Err Unit × Template` (respectively
`× Presentation`): the first component says whether the call returned
normally or raised, the second is the state of the receiver when the
call finished, mirroring where the single mutating statement
(`self.thinkcell_objects.append(spec)` resp. `self.slides.append(...)`)
sits relative to the statements that can raise.

Python's reference semantics for `Presentation.add_template` (the slide
list holds references to `Template` objects, not copies) is modelled by
an explicit `Store` (heap of `Template`s) and `Ref` indices: the
presentation's slide list holds `Ref`s, and `save_ppttc` dereferences
them against the store passed at save time.

File I/O is out of scope (per the specification): `save_ppttc` returns
the boolean result together with the JSON-ready list it would write.
-/

namespace ThinkcellBuilder

/-- Python values that can appear as raw inputs to the library.
`bool` is a separate constructor because Python's `bool` is a subtype of
`int`: `isinstance(True, int)` holds, so the `(int, float)` branch of
`transform_input` accepts it.  `datetime` carries year, month, day and
(unused by `strftime("%Y-%m-%d")`) hour and minute.  Floats are modelled
as rationals; only their identity matters here, never their arithmetic. -/
inductive PyValue where
  | str (s : String)
  | int (n : Int)
  | float (q : ℚ)
  | bool (b : Bool)
  | datetime (year month day hour minute : Nat)
  | list (xs : List PyValue)
  | none

instance : Inhabited PyValue := ⟨PyValue.none⟩

/-- The Python exception class of a raised error. -/
inductive ErrKind where
  | valueError
  | runtimeError
  | typeError
deriving DecidableEq, Repr

/-- The errors the library can raise, one constructor per `raise` site
relevant to the embedded methods. -/
inductive Err where
  /-- `transform_input`: value not datetime/str/int/float (`ValueError`). -/
  | invalidValueType
  /-- `add_chart`: a data row's length is not `len(categories) + 1` (`ValueError`). -/
  | invalidShapeChart
  /-- `add_chart`: `fill` supplied with `len(fill) != len(data)` (`ValueError`). -/
  | invalidFillChart
  /-- `add_pie_chart`: a data row's length is not 2 (`RuntimeError`). -/
  | invalidShapePie
  /-- `_verify_template`: template name is not a string (`TypeError`). -/
  | templateNotString
  /-- `_verify_template`: template name does not end in `.pptx` (`TypeError`). -/
  | templateBadSuffix
  /-- `save_ppttc`: filename does not end in `.ppttc` (`ValueError`). -/
  | saveBadExtension
  /-- `save_ppttc`: the presentation has no slides (`ValueError`). -/
  | saveNoSlides
deriving DecidableEq, Repr

/-- The Python exception class each error is raised as in the source. -/
def Err.kind : Err → ErrKind
  | .invalidValueType => .valueError
  | .invalidShapeChart => .valueError
  | .invalidFillChart => .valueError
  | .invalidShapePie => .runtimeError
  | .templateNotString => .typeError
  | .templateBadSuffix => .typeError
  | .saveBadExtension => .valueError
  | .saveNoSlides => .valueError

/-- Shape errors: the spec's `InvalidShape` taxonomy entry
(row/category/fill length mismatch, or wrong row width for pie data). -/
def Err.isShape : Err → Bool
  | .invalidShapeChart => true
  | .invalidFillChart => true
  | .invalidShapePie => true
  | _ => false

/-- Zero-pad a numeral to width 2, as `strftime`'s `%m` / `%d` do. -/
def pad2 (n : Nat) : String :=
  if n < 10 then "0" ++ toString n else toString n

/-- Zero-pad a numeral to width 4, as `strftime`'s `%Y` does for the
years (1 ≤ year ≤ 9999) a Python `datetime` can hold. -/
def pad4 (n : Nat) : String :=
  if n < 10 then "000" ++ toString n
  else if n < 100 then "00" ++ toString n
  else if n < 1000 then "0" ++ toString n
  else toString n

/-- `data_element.strftime("%Y-%m-%d")`. -/
def strftimeYMD (year month day : Nat) : String :=
  pad4 year ++ "-" ++ pad2 month ++ "-" ++ pad2 day

/-- The value part of a produced cell dictionary: exactly one of the
three tags `"string"`, `"number"`, `"date"`.  The `number` payload keeps
the raw Python value (`int`, `float` or `bool`), since the source stores
`data_element` itself under the `"number"` key. -/
inductive CellVal where
  | string (s : String)
  | number (v : PyValue)
  | date (s : String)

/-- A produced cell: a tagged value, plus the `"fill"` entry, present
exactly when a color was supplied. -/
structure Cell where
  val : CellVal
  fill : Option String

/-- A table row.  `Option Cell` because the chart header row starts with
the Python literal `None` (`[None] + [...]`); all other entries are
actual cells. -/
abbrev Row := List (Option Cell)

/-- One entry of `thinkcell_objects`: the dict
`{"name": ..., "table": [...]}`. -/
structure SlideObject where
  name : String
  table : List Row

/-- `Template`: a template path plus the accumulated `thinkcell_objects`.
The path is a `PyValue` because Python does not enforce the `str`
annotation and `Presentation._verify_template` explicitly checks
`isinstance(template_name, str)`. -/
structure Template where
  path : PyValue
  thinkcell_objects : List SlideObject

instance : Inhabited Template := ⟨⟨PyValue.none, []⟩⟩

/-- `Template.transform_input(data_element, color=None)`.  The `isinstance`
checks run in source order: `datetime` first, then `str`, then
`(int, float)` — the last one also accepting `bool`, Python's `bool`
being a subtype of `int` — and anything else raises `ValueError`. -/
def Template.transform_input (data_element : PyValue) (color : Option String) :
    Except Err Cell :=
  match data_element with
  | .datetime y m d _ _ => .ok ⟨.date (strftimeYMD y m d), color⟩
  | .str s => .ok ⟨.string s, color⟩
  | .int n => .ok ⟨.number (.int n), color⟩
  | .float q => .ok ⟨.number (.float q), color⟩
  | .bool b => .ok ⟨.number (.bool b), color⟩
  | _ => .error .invalidValueType

/-- `[self.transform_input(el, color) for el in row]`, stopping at the
first raising element, the cells wrapped in `some` for use in a `Row`. -/
def transformRow (row : List PyValue) (color : Option String) : Except Err Row :=
  match row with
  | [] => .ok []
  | el :: rest =>
    match Template.transform_input el color with
    | .error e => .error e
    | .ok cell =>
      match transformRow rest color with
      | .error e => .error e
      | .ok cells => .ok (some cell :: cells)

/-- The `for data_list, color in zip(data, fill)` loop shared by
`add_table`, `add_chart` and `add_pie_chart`: one transformed row per
zipped pair, stopping at the first raising element. -/
def buildRows (pairs : List (List PyValue × Option String)) : Except Err (List Row) :=
  match pairs with
  | [] => .ok []
  | (data_list, color) :: rest =>
    match transformRow data_list color with
    | .error e => .error e
    | .ok row =>
      match buildRows rest with
      | .error e => .error e
      | .ok rows => .ok (row :: rows)

/-- `fill = [None for _ in data]` when `fill is None`; a supplied fill
list is used as-is (its entries may themselves be `None`, per the
docstring "Can specify None to use no fill"). -/
def normFill (fill : Option (List (Option String))) (data : List (List PyValue)) :
    List (Option String) :=
  match fill with
  | Option.none => data.map (fun _ => Option.none)
  | some f => f

/-- Append one finished `spec` dict to `self.thinkcell_objects`. -/
def Template.appendObject (t : Template) (obj : SlideObject) : Template :=
  { t with thinkcell_objects := t.thinkcell_objects ++ [obj] }

/-- `Template.add_textfield(name, text)`.  A non-string `name` only
triggers a warning and `str()` coercion in the source, which never
raises; we therefore take `name : String`. -/
def Template.add_textfield (t : Template) (name : String) (text : PyValue) :
    Except Err Unit × Template :=
  match Template.transform_input text Option.none with
  | .error e => (.error e, t)
  | .ok cell => (.ok (), t.appendObject ⟨name, [[some cell]]⟩)

/-- `Template.add_table(name, data, fill=None)`.  No shape validation:
the data rows are zipped with the (normalized) fill list, so a supplied
fill list of a different length silently truncates or pads nothing. -/
def Template.add_table (t : Template) (name : String) (data : List (List PyValue))
    (fill : Option (List (Option String))) : Except Err Unit × Template :=
  match buildRows (data.zip (normFill fill data)) with
  | .error e => (.error e, t)
  | .ok rows => (.ok (), t.appendObject ⟨name, rows⟩)

/-- The tail of `add_chart` after its two validations: transform the
categories, build `[None] + categories` as header, optionally append the
blank row, then the zipped data rows, and append the finished spec. -/
def Template.add_chart_build (t : Template) (name : String)
    (categories : List PyValue) (data : List (List PyValue))
    (fillL : List (Option String)) (first_row_blank : Bool) :
    Except Err Unit × Template :=
  match transformRow categories Option.none with
  | .error e => (.error e, t)
  | .ok cats =>
    match buildRows (data.zip fillL) with
    | .error e => (.error e, t)
    | .ok rows =>
      let chart_categories : Row := Option.none :: cats
      let table := [chart_categories]
        ++ (if first_row_blank then [([] : Row)] else []) ++ rows
      (.ok (), t.appendObject ⟨name, table⟩)

/-- `Template.add_chart(name, categories, data, fill=None,
first_row_blank=True)`.  Validation order follows the source: first the
per-row length check (`len(data_list) != len(categories) + 1` raises
`ValueError`), then the fill cardinality check
(`fill is not None and len(fill) != len(data)` raises `ValueError`),
then transformation. -/
def Template.add_chart (t : Template) (name : String) (categories : List PyValue)
    (data : List (List PyValue)) (fill : Option (List (Option String)))
    (first_row_blank : Bool) : Except Err Unit × Template :=
  match data.find? (fun data_list => data_list.length != categories.length + 1) with
  | some _ => (.error .invalidShapeChart, t)
  | Option.none =>
    match fill with
    | some f =>
      if f.length != data.length then (.error .invalidFillChart, t)
      else t.add_chart_build name categories data f first_row_blank
    | Option.none =>
      t.add_chart_build name categories data (normFill Option.none data) first_row_blank

/-- `Template.add_pie_chart(name, data, fill=None)`.  The per-row width
check (`len(row) != 2` raises `RuntimeError`) runs for all rows first;
then the table starts with one empty row (`spec["table"] = [[]]`) and
the zipped data rows follow. -/
def Template.add_pie_chart (t : Template) (name : String)
    (data : List (List PyValue)) (fill : Option (List (Option String))) :
    Except Err Unit × Template :=
  match data.find? (fun row => row.length != 2) with
  | some _ => (.error .invalidShapePie, t)
  | Option.none =>
    match buildRows (data.zip (normFill fill data)) with
    | .error e => (.error e, t)
    | .ok rows => (.ok (), t.appendObject ⟨name, ([] : Row) :: rows⟩)

/-- The dict returned by `Template.serialize`:
`{"template": self.path, "data": self.thinkcell_objects}`. -/
structure Serialized where
  template : PyValue
  data : List SlideObject

/-- `Template.serialize()`. -/
def Template.serialize (t : Template) : Serialized :=
  ⟨t.path, t.thinkcell_objects⟩

/-- Python's `str.endswith`: exact, case-sensitive suffix test. -/
def pyEndsWith (s suffix : String) : Bool :=
  suffix.data.isSuffixOf s.data

/-- A reference to a `Template` object: Python variables and the
presentation's slide list hold references into the heap, not copies. -/
abbrev Ref := Nat

/-- The heap of `Template` objects live at some point of the run. -/
structure Store where
  heap : List Template

/-- Dereference.  Out-of-range references cannot arise from the Python
program; the default is only there to totalize the lookup. -/
def Store.get (σ : Store) (r : Ref) : Template :=
  σ.heap.getD r default

/-- Overwrite the object a reference points at: the observable effect of
mutating a `Template` in place (e.g. by a later `add_*` call). -/
def Store.update (σ : Store) (r : Ref) (t : Template) : Store :=
  ⟨σ.heap.set r t⟩

/-- `Presentation`: the ordered slide list, holding references. -/
structure Presentation where
  slides : List Ref
deriving DecidableEq

/-- `Presentation._verify_template(template_name)`: `TypeError` if the
name is not a string, `TypeError` if it does not end in `.pptx`,
otherwise the name is returned unchanged. -/
def Presentation.verify_template (template_name : PyValue) : Except Err String :=
  match template_name with
  | .str s =>
    if pyEndsWith s ".pptx" then .ok s else .error .templateBadSuffix
  | _ => .error .templateNotString

/-- `Presentation.add_template(template)`: verify the template's path,
then append the reference to the slide list. -/
def Presentation.add_template (σ : Store) (p : Presentation) (r : Ref) :
    Except Err Unit × Presentation :=
  match Presentation.verify_template (σ.get r).path with
  | .error e => (.error e, p)
  | .ok _ => (.ok (), ⟨p.slides ++ [r]⟩)

/-- `Presentation.save_ppttc(filename)`: `ValueError` if the (stringified)
filename does not end in `.ppttc`, `ValueError` if the slide list is
empty, else serialize every slide — dereferenced against the store at
save time — and return `True` together with the JSON array written. -/
def Presentation.save_ppttc (σ : Store) (p : Presentation) (filename : String) :
    Except Err (Bool × List Serialized) :=
  if !pyEndsWith filename ".ppttc" then .error .saveBadExtension
  else if p.slides.isEmpty then .error .saveNoSlides
  else .ok (true, p.slides.map (fun r => (σ.get r).serialize))

/-! ## Concrete sample inputs (taken from the spec and the test suite) -/

/-- `Template("example.pptx")`. -/
def exampleTemplate : Template := ⟨PyValue.str "example.pptx", []⟩

/-- The literal categories `["Alpha", "bravo"]` of the round-trip example. -/
def roundtripCategories : List PyValue := [PyValue.str "Alpha", PyValue.str "bravo"]

/-- The literal data `[[3, 4, datetime(2012, 9, 16)], [2, "adokf", 4]]` of
the round-trip example. -/
def roundtripData : List (List PyValue) :=
  [[PyValue.int 3, PyValue.int 4, PyValue.datetime 2012 9 16 0 0],
   [PyValue.int 2, PyValue.str "adokf", PyValue.int 4]]

/-- The literal table data `[["A1", "A2"], ["B1", "B2"]]` used by the
table tests. -/
def tableData : List (List PyValue) :=
  [[PyValue.str "A1", PyValue.str "A2"], [PyValue.str "B1", PyValue.str "B2"]]

/-- The literal pie data `[["Series1", 90], ["Series2", 10]]` used by the
pie-chart tests. -/
def pieData : List (List PyValue) :=
  [[PyValue.str "Series1", PyValue.int 90], [PyValue.str "Series2", PyValue.int 10]]

/-- `exampleTemplate` after a further `add_textfield("Title", "A great
slide")`: a mutation a caller can perform after the template was added to
a presentation. -/
def mutatedTemplate : Template :=
  (Template.add_textfield exampleTemplate "Title" (PyValue.str "A great slide")).2

end ThinkcellBuilder

namespace ThinkcellBuilder

/-! ## Helper lemmas -/

/-- The only error `transform_input` can raise is the `ValueError` for an
unsupported value type. -/
theorem transform_input_error_eq (v : PyValue) (c : Option String) (e : Err)
    (h : Template.transform_input v c = .error e) : e = .invalidValueType := by
  cases v <;> simp [Template.transform_input] at h <;> exact h.symm

/-- A successfully transformed cell carries exactly the supplied color. -/
theorem transform_input_ok_fill (v : PyValue) (c : Option String) (cell : Cell)
    (h : Template.transform_input v c = .ok cell) : cell.fill = c := by
  cases v <;> simp [Template.transform_input] at h <;> simp [← h]

/-- Errors out of a row transformation are value-type errors. -/
theorem transformRow_error_eq (row : List PyValue) (c : Option String) (e : Err) :
    transformRow row c = .error e → e = .invalidValueType := by
  induction row with
  | nil => intro h; simp [transformRow] at h
  | cons x xs ih =>
    intro h
    rw [transformRow] at h
    cases hx : Template.transform_input x c with
    | error e1 =>
      rw [hx] at h
      simp at h
      rw [← h]
      exact transform_input_error_eq x c e1 hx
    | ok cell =>
      rw [hx] at h
      cases hr : transformRow xs c with
      | error e1 =>
        rw [hr] at h
        simp at h
        subst h
        exact ih hr
      | ok cells => rw [hr] at h; simp at h

/-- A successfully transformed row has one `some` cell per input element,
every cell carrying the row's color. -/
theorem transformRow_ok_spec (row : List PyValue) (c : Option String) (cells : Row) :
    transformRow row c = .ok cells →
    cells.length = row.length ∧ ∀ x ∈ cells, ∃ cl, x = some cl ∧ cl.fill = c := by
  induction row generalizing cells with
  | nil => intro h; simp [transformRow] at h; simp [h]
  | cons x xs ih =>
    intro h
    rw [transformRow] at h
    cases hx : Template.transform_input x c with
    | error e1 => rw [hx] at h; simp at h
    | ok cell =>
      rw [hx] at h
      cases hr : transformRow xs c with
      | error e1 => rw [hr] at h; simp at h
      | ok tailCells =>
        rw [hr] at h
        simp at h
        obtain ⟨hlen, hall⟩ := ih tailCells hr
        rw [← h]
        refine ⟨by simp [hlen], ?_⟩
        intro y hy
        rcases List.mem_cons.mp hy with hy | hy
        · exact ⟨cell, hy, transform_input_ok_fill x c cell hx⟩
        · exact hall y hy

/-- Errors out of the row-building loop are value-type errors. -/
theorem buildRows_error_eq (pairs : List (List PyValue × Option String)) (e : Err) :
    buildRows pairs = .error e → e = .invalidValueType := by
  induction pairs with
  | nil => intro h; simp [buildRows] at h
  | cons pr rest ih =>
    intro h
    rw [buildRows] at h
    cases hx : transformRow pr.1 pr.2 with
    | error e1 =>
      rw [show (pr : List PyValue × Option String) = (pr.1, pr.2) from rfl, hx] at h
      simp at h
      rw [← h]
      exact transformRow_error_eq pr.1 pr.2 e1 hx
    | ok row =>
      rw [show (pr : List PyValue × Option String) = (pr.1, pr.2) from rfl, hx] at h
      cases hr : buildRows rest with
      | error e1 =>
        rw [hr] at h
        simp at h
        subst h
        exact ih hr
      | ok rows => rw [hr] at h; simp at h

/-- A successful row-building loop emits exactly one row per zipped pair,
each matching its pair in width and color. -/
theorem buildRows_ok_spec (pairs : List (List PyValue × Option String)) (rows : List Row) :
    buildRows pairs = .ok rows →
    List.Forall₂ (fun (pr : List PyValue × Option String) (row : Row) =>
      row.length = pr.1.length ∧ ∀ x ∈ row, ∃ cl, x = some cl ∧ cl.fill = pr.2)
      pairs rows := by
  induction pairs generalizing rows with
  | nil => intro h; simp [buildRows] at h; simp [h]
  | cons pr rest ih =>
    intro h
    rw [buildRows] at h
    cases hx : transformRow pr.1 pr.2 with
    | error e1 =>
      rw [show (pr : List PyValue × Option String) = (pr.1, pr.2) from rfl, hx] at h
      simp at h
    | ok row =>
      rw [show (pr : List PyValue × Option String) = (pr.1, pr.2) from rfl, hx] at h
      cases hr : buildRows rest with
      | error e1 => rw [hr] at h; simp at h
      | ok rows1 =>
        rw [hr] at h
        simp at h
        rw [← h]
        exact List.Forall₂.cons (transformRow_ok_spec pr.1 pr.2 row hx) (ih rows1 hr)

/-- A successful row-building loop emits one row per zipped pair. -/
theorem buildRows_ok_length (pairs : List (List PyValue × Option String)) (rows : List Row)
    (h : buildRows pairs = .ok rows) : rows.length = pairs.length :=
  (List.Forall₂.length_eq (buildRows_ok_spec pairs rows h)).symm

/-- `add_chart_build` raises only value-type errors, and leaves the
receiver untouched when it raises. -/
theorem add_chart_build_error (t : Template) (name : String)
    (categories : List PyValue) (data : List (List PyValue))
    (fillL : List (Option String)) (frb : Bool) (e : Err)
    (h : (Template.add_chart_build t name categories data fillL frb).1 = .error e) :
    e = .invalidValueType ∧ (Template.add_chart_build t name categories data fillL frb).2 = t := by
  unfold Template.add_chart_build at *
  cases hc : transformRow categories Option.none with
  | error e1 =>
    rw [hc] at h
    simp at h
    exact ⟨by rw [← h]; exact transformRow_error_eq categories Option.none e1 hc, rfl⟩
  | ok cats =>
    cases hr : buildRows (data.zip fillL) with
    | error e1 =>
      rw [hc, hr] at h
      simp at h
      exact ⟨by rw [← h]; exact buildRows_error_eq (data.zip fillL) e1 hr, rfl⟩
    | ok rows =>
      rw [hc, hr] at h
      simp at h

/-- Setting then reading the same valid index of a list. -/
theorem getD_set_self {α : Type} (l : List α) (r : Nat) (a d : α)
    (h : r < l.length) : (l.set r a).getD r d = a := by
  induction l generalizing r with
  | nil => simp at h
  | cons x xs ih =>
    cases r with
    | zero => simp [List.set, List.getD]
    | succ n =>
      simp only [List.set, List.getD, List.get?]
      exact ih n (by simpa using h)

/-- The last element of a list with one element appended. -/
theorem getLast?_concat_eq {α : Type} (l : List α) (a : α) :
    (l ++ [a]).getLast? = some a :=
  List.getLast?_concat l

/-- Branch equation: `add_textfield` when the text raises. -/
theorem add_textfield_eq_error (t : Template) (name : String) (text : PyValue) (e : Err)
    (hx : Template.transform_input text Option.none = .error e) :
    Template.add_textfield t name text = (.error e, t) := by
  unfold Template.add_textfield
  rw [hx]

/-- Branch equation: `add_textfield` when the text transforms. -/
theorem add_textfield_eq_ok (t : Template) (name : String) (text : PyValue) (cell : Cell)
    (hx : Template.transform_input text Option.none = .ok cell) :
    Template.add_textfield t name text
      = (.ok (), t.appendObject ⟨name, [[some cell]]⟩) := by
  unfold Template.add_textfield
  rw [hx]

/-- Branch equation: `add_table` when some cell raises. -/
theorem add_table_eq_error (t : Template) (name : String) (data : List (List PyValue))
    (fill : Option (List (Option String))) (e : Err)
    (hx : buildRows (data.zip (normFill fill data)) = .error e) :
    Template.add_table t name data fill = (.error e, t) := by
  unfold Template.add_table
  rw [hx]

/-- Branch equation: `add_table` when all cells transform. -/
theorem add_table_eq_ok (t : Template) (name : String) (data : List (List PyValue))
    (fill : Option (List (Option String))) (rows : List Row)
    (hx : buildRows (data.zip (normFill fill data)) = .ok rows) :
    Template.add_table t name data fill = (.ok (), t.appendObject ⟨name, rows⟩) := by
  unfold Template.add_table
  rw [hx]

/-- Branch equation: `add_chart` when some data row has the wrong length. -/
theorem add_chart_eq_shape (t : Template) (name : String) (categories : List PyValue)
    (data : List (List PyValue)) (fill : Option (List (Option String))) (frb : Bool)
    (dl : List PyValue)
    (hf : data.find? (fun x => x.length != categories.length + 1) = some dl) :
    Template.add_chart t name categories data fill frb
      = (.error .invalidShapeChart, t) := by
  unfold Template.add_chart
  rw [hf]

/-- Branch equation: `add_chart` when the rows pass but the supplied fill
list has the wrong length. -/
theorem add_chart_eq_fill (t : Template) (name : String) (categories : List PyValue)
    (data : List (List PyValue)) (f : List (Option String)) (frb : Bool)
    (hf : data.find? (fun x => x.length != categories.length + 1) = Option.none)
    (hlen : (f.length != data.length) = true) :
    Template.add_chart t name categories data (some f) frb
      = (.error .invalidFillChart, t) := by
  unfold Template.add_chart
  rw [hf]
  show (if (f.length != data.length) = true then (Except.error Err.invalidFillChart, t)
      else t.add_chart_build name categories data f frb)
    = (Except.error Err.invalidFillChart, t)
  rw [hlen]
  rfl

/-- Branch equation: `add_chart` when both validations pass, supplied fill. -/
theorem add_chart_eq_build_some (t : Template) (name : String) (categories : List PyValue)
    (data : List (List PyValue)) (f : List (Option String)) (frb : Bool)
    (hf : data.find? (fun x => x.length != categories.length + 1) = Option.none)
    (hlen : (f.length != data.length) = false) :
    Template.add_chart t name categories data (some f) frb
      = Template.add_chart_build t name categories data f frb := by
  unfold Template.add_chart
  rw [hf]
  show (if (f.length != data.length) = true then (Except.error Err.invalidFillChart, t)
      else t.add_chart_build name categories data f frb)
    = Template.add_chart_build t name categories data f frb
  rw [hlen]
  rfl

/-- Branch equation: `add_chart` when the rows pass and no fill was given. -/
theorem add_chart_eq_build_none (t : Template) (name : String) (categories : List PyValue)
    (data : List (List PyValue)) (frb : Bool)
    (hf : data.find? (fun x => x.length != categories.length + 1) = Option.none) :
    Template.add_chart t name categories data Option.none frb
      = Template.add_chart_build t name categories data (normFill Option.none data) frb := by
  unfold Template.add_chart
  rw [hf]

/-- Branch equation: `add_pie_chart` when some row is not a pair. -/
theorem add_pie_eq_shape (t : Template) (name : String) (data : List (List PyValue))
    (fill : Option (List (Option String))) (row : List PyValue)
    (hf : data.find? (fun x => x.length != 2) = some row) :
    Template.add_pie_chart t name data fill = (.error .invalidShapePie, t) := by
  unfold Template.add_pie_chart
  rw [hf]

/-- Branch equation: `add_pie_chart` when the rows pass but a cell raises. -/
theorem add_pie_eq_error (t : Template) (name : String) (data : List (List PyValue))
    (fill : Option (List (Option String))) (e : Err)
    (hf : data.find? (fun x => x.length != 2) = Option.none)
    (hx : buildRows (data.zip (normFill fill data)) = .error e) :
    Template.add_pie_chart t name data fill = (.error e, t) := by
  unfold Template.add_pie_chart
  rw [hf, hx]

/-- Branch equation: `add_pie_chart` on success. -/
theorem add_pie_eq_ok (t : Template) (name : String) (data : List (List PyValue))
    (fill : Option (List (Option String))) (rows : List Row)
    (hf : data.find? (fun x => x.length != 2) = Option.none)
    (hx : buildRows (data.zip (normFill fill data)) = .ok rows) :
    Template.add_pie_chart t name data fill
      = (.ok (), t.appendObject ⟨name, ([] : Row) :: rows⟩) := by
  unfold Template.add_pie_chart
  rw [hf, hx]

end ThinkcellBuilder

namespace ThinkcellBuilder

/-! ## Claim theorems -/

/-- C1: for every raw value v and optional color c, `transform_input(v, c)`
returns exactly one tagged cell determined by v's class (the `Cell` type
carries exactly one of the three tags; the source checks datetime first,
then str, then int/float): a datetime yields an ISO-formatted
`date` cell, a string a `string` cell, an int or float a `number` cell,
each carrying the `fill` entry exactly when c is not None (the cell's
`fill` field equals c); a value outside these classes — a list, or
Python's None — raises the `InvalidValueType` error, of class
`ValueError`.  The embedding is a pure function, so the call has no side
effects. -/
theorem transform_input_classification (c : Option String) :
    (∀ y m d hh mi, Template.transform_input (PyValue.datetime y m d hh mi) c
        = .ok ⟨.date (strftimeYMD y m d), c⟩) ∧
    (∀ s, Template.transform_input (PyValue.str s) c = .ok ⟨.string s, c⟩) ∧
    (∀ n, Template.transform_input (PyValue.int n) c = .ok ⟨.number (.int n), c⟩) ∧
    (∀ q, Template.transform_input (PyValue.float q) c = .ok ⟨.number (.float q), c⟩) ∧
    (∀ xs, Template.transform_input (PyValue.list xs) c = .error .invalidValueType) ∧
    (Template.transform_input PyValue.none c = .error .invalidValueType) ∧
    Err.invalidValueType.kind = ErrKind.valueError :=
  ⟨fun _ _ _ _ _ => rfl, fun _ => rfl, fun _ => rfl, fun _ => rfl,
   fun _ => rfl, rfl, rfl⟩

/-- C10: because the classifier checks datetime, then str, then
`(int, float)` — and Python's `bool` is a subtype of `int` — a boolean
does not raise `InvalidValueType` but becomes a `number` cell, so
booleans are silently serialized as numbers by the `add_*` operations
(shown here for `add_table`). -/
theorem transform_input_bool_is_number (b : Bool) (c : Option String) :
    Template.transform_input (PyValue.bool b) c = .ok ⟨.number (.bool b), c⟩ ∧
    (∀ e, Template.transform_input (PyValue.bool b) c ≠ .error e) ∧
    (∀ t name, Template.add_table t name [[PyValue.bool b]] Option.none
      = (.ok (), t.appendObject ⟨name, [[some ⟨.number (.bool b), Option.none⟩]]⟩)) :=
  ⟨rfl, fun e h => by simp [Template.transform_input] at h, fun t name => rfl⟩

/-- C4: calling `add_chart` with categories `["Alpha", "bravo"]`, data
`[[3, 4, datetime(2012, 9, 16)], [2, "adokf", 4]]` and
`first_row_blank=True`, then serializing, yields exactly the header row
`[None, {string: "Alpha"}, {string: "bravo"}]`, one blank row, then the
two transformed data rows, in order. -/
theorem add_chart_roundtrip_example :
    (Template.add_chart exampleTemplate "Cool Name bro" roundtripCategories
        roundtripData Option.none true).1 = .ok () ∧
    (Template.add_chart exampleTemplate "Cool Name bro" roundtripCategories
        roundtripData Option.none true).2.serialize
      = ⟨PyValue.str "example.pptx",
         [⟨"Cool Name bro",
           [[Option.none, some ⟨.string "Alpha", Option.none⟩,
             some ⟨.string "bravo", Option.none⟩],
            [],
            [some ⟨.number (.int 3), Option.none⟩, some ⟨.number (.int 4), Option.none⟩,
             some ⟨.date "2012-09-16", Option.none⟩],
            [some ⟨.number (.int 2), Option.none⟩, some ⟨.string "adokf", Option.none⟩,
             some ⟨.number (.int 4), Option.none⟩]]⟩]⟩ :=
  ⟨rfl, rfl⟩

/-- C5: every `add_*` operation is atomic.  Whenever `add_textfield`,
`add_table`, `add_chart` or `add_pie_chart` raises — unsupported cell
value or shape/cardinality mismatch — the receiver is exactly what it
was before the call: the source builds the new spec dict locally and
appends it to `thinkcell_objects` only in the method's final statement,
after every statement that can raise. -/
theorem add_ops_atomic (t : Template) :
    (∀ name text e, (Template.add_textfield t name text).1 = .error e →
      (Template.add_textfield t name text).2 = t) ∧
    (∀ name data fill e, (Template.add_table t name data fill).1 = .error e →
      (Template.add_table t name data fill).2 = t) ∧
    (∀ name categories data fill frb e,
      (Template.add_chart t name categories data fill frb).1 = .error e →
      (Template.add_chart t name categories data fill frb).2 = t) ∧
    (∀ name data fill e, (Template.add_pie_chart t name data fill).1 = .error e →
      (Template.add_pie_chart t name data fill).2 = t) := by
  refine ⟨?_, ?_, ?_, ?_⟩
  · intro name text e h
    cases hx : Template.transform_input text Option.none with
    | error e1 => rw [add_textfield_eq_error t name text e1 hx]
    | ok cell => rw [add_textfield_eq_ok t name text cell hx] at h; simp at h
  · intro name data fill e h
    cases hx : buildRows (data.zip (normFill fill data)) with
    | error e1 => rw [add_table_eq_error t name data fill e1 hx]
    | ok rows => rw [add_table_eq_ok t name data fill rows hx] at h; simp at h
  · intro name categories data fill frb e h
    cases hf : data.find? (fun x => x.length != categories.length + 1) with
    | some dl => rw [add_chart_eq_shape t name categories data fill frb dl hf]
    | none =>
      cases fill with
      | none =>
        rw [add_chart_eq_build_none t name categories data frb hf] at h ⊢
        exact (add_chart_build_error t name categories data
          (normFill Option.none data) frb e h).2
      | some f =>
        cases hlen : f.length != data.length with
        | true => rw [add_chart_eq_fill t name categories data f frb hf hlen]
        | false =>
          rw [add_chart_eq_build_some t name categories data f frb hf hlen] at h ⊢
          exact (add_chart_build_error t name categories data f frb e h).2
  · intro name data fill e h
    cases hf : data.find? (fun x => x.length != 2) with
    | some row => rw [add_pie_eq_shape t name data fill row hf]
    | none =>
      cases hx : buildRows (data.zip (normFill fill data)) with
      | error e1 => rw [add_pie_eq_error t name data fill e1 hf hx]
      | ok rows => rw [add_pie_eq_ok t name data fill rows hf hx] at h; simp at h

/-- Witness for `add_ops_atomic`: an `add_textfield` call on
`Template("example.pptx")` with the unsupported value `[]` raises the
value-type error and leaves the template untouched. -/
theorem add_ops_atomic_witness :
    (Template.add_textfield exampleTemplate "Title" (PyValue.list [])).1
        = .error .invalidValueType ∧
    (Template.add_textfield exampleTemplate "Title" (PyValue.list [])).2
        = exampleTemplate :=
  ⟨rfl, (add_ops_atomic exampleTemplate).1 "Title" (PyValue.list [])
    Err.invalidValueType rfl⟩

/-- C2: `add_chart` raises an InvalidShape error of class `ValueError` if
and only if some data row's length differs from `len(categories) + 1`,
or a fill list is supplied whose length differs from the number of data
rows.  (When neither holds, the only possible error is the value-type
error, which is not a shape error.) -/
theorem add_chart_invalidShape_iff (t : Template) (name : String)
    (categories : List PyValue) (data : List (List PyValue))
    (fill : Option (List (Option String))) (first_row_blank : Bool) :
    (∃ e, (Template.add_chart t name categories data fill first_row_blank).1 = .error e
        ∧ e.isShape = true ∧ e.kind = ErrKind.valueError)
    ↔ ((∃ dl ∈ data, dl.length ≠ categories.length + 1)
        ∨ (∃ f, fill = some f ∧ f.length ≠ data.length)) := by
  cases hf : data.find? (fun x => x.length != categories.length + 1) with
  | some dl =>
    rw [add_chart_eq_shape t name categories data fill first_row_blank dl hf]
    constructor
    · intro _
      left
      exact ⟨dl, List.mem_of_find?_eq_some hf, by simpa using List.find?_some hf⟩
    · intro _
      exact ⟨Err.invalidShapeChart, rfl, rfl, rfl⟩
  | none =>
    have hall : ∀ dl ∈ data, dl.length = categories.length + 1 := by
      intro dl hdl
      have h1 := List.find?_eq_none.mp hf dl hdl
      simpa using h1
    cases fill with
    | none =>
      rw [add_chart_eq_build_none t name categories data first_row_blank hf]
      constructor
      · rintro ⟨e, he, hs, hk⟩
        rw [(add_chart_build_error t name categories data (normFill Option.none data)
          first_row_blank e he).1] at hs
        simp [Err.isShape] at hs
      · rintro (⟨dl, hdl, hne⟩ | ⟨f, hf2, hne⟩)
        · exact absurd (hall dl hdl) hne
        · exact Option.noConfusion hf2
    | some f =>
      cases hlen : f.length != data.length with
      | true =>
        rw [add_chart_eq_fill t name categories data f first_row_blank hf hlen]
        constructor
        · intro _
          right
          exact ⟨f, rfl, by simpa using hlen⟩
        · intro _
          exact ⟨Err.invalidFillChart, rfl, rfl, rfl⟩
      | false =>
        have hlen2 : f.length = data.length := by simpa using hlen
        rw [add_chart_eq_build_some t name categories data f first_row_blank hf hlen]
        constructor
        · rintro ⟨e, he, hs, hk⟩
          rw [(add_chart_build_error t name categories data f first_row_blank e he).1] at hs
          simp [Err.isShape] at hs
        · rintro (⟨dl, hdl, hne⟩ | ⟨f2, hf2, hne⟩)
          · exact absurd (hall dl hdl) hne
          · cases hf2
            exact absurd hlen2 hne

/-- Witness for `add_chart_invalidShape_iff`: one category but a data row
of length 1 (instead of 2) makes `add_chart` raise the shape error. -/
theorem add_chart_invalidShape_iff_witness :
    ∃ e, (Template.add_chart exampleTemplate "Chart name" roundtripCategories
        [[PyValue.int 3]] Option.none true).1 = .error e
      ∧ e.isShape = true ∧ e.kind = ErrKind.valueError :=
  (add_chart_invalidShape_iff exampleTemplate "Chart name" roundtripCategories
      [[PyValue.int 3]] Option.none true).mpr
    (Or.inl ⟨[PyValue.int 3], by simp, by decide⟩)

/-- C3 counterexample: `add_table` with two data rows and a one-element
fill list — a fill-cardinality mismatch — does not raise: it returns
normally and silently emits only the single zipped row.  This refutes
the claim that a fill mismatch is a hard error for `add_table` (and,
symmetrically, for `add_pie_chart`). -/
theorem add_table_fill_mismatch_accepted :
    tableData.length = 2 ∧
    (Template.add_table exampleTemplate "nice table" tableData
        (some [some "#000000"])).1 = .ok () ∧
    (Template.add_table exampleTemplate "nice table" tableData
        (some [some "#000000"])).2.thinkcell_objects
      = [⟨"nice table",
          [[some ⟨.string "A1", some "#000000"⟩,
            some ⟨.string "A2", some "#000000"⟩]]⟩] :=
  ⟨rfl, rfl, rfl⟩

/-- C3 (amended): only `add_chart` validates fill cardinality — a
supplied fill list whose length differs from the number of data rows
makes `add_chart` raise a hard InvalidShape-class error.  `add_table`
and `add_pie_chart` perform no such check: they never raise on a fill
mismatch (their only errors are value-type errors, respectively the pie
row-width error) and instead zip rows with colors, silently truncating
the emitted table to the shorter of the two lists. -/
theorem fill_cardinality_amended :
    (∀ (t : Template) (name : String) (categories : List PyValue)
        (data : List (List PyValue)) (f : List (Option String)) (frb : Bool),
      f.length ≠ data.length →
      ∃ e, (Template.add_chart t name categories data (some f) frb).1 = .error e
        ∧ e.isShape = true) ∧
    (∀ (t : Template) (name : String) (data : List (List PyValue))
        (f : List (Option String)) (e : Err),
      (Template.add_table t name data (some f)).1 = .error e →
      e = .invalidValueType) ∧
    (∀ (t : Template) (name : String) (data : List (List PyValue))
        (f : List (Option String)),
      (Template.add_table t name data (some f)).1 = .ok () →
      ∃ obj, (Template.add_table t name data (some f)).2.thinkcell_objects
          = t.thinkcell_objects ++ [obj]
        ∧ obj.table.length = min data.length f.length) ∧
    (∀ (t : Template) (name : String) (data : List (List PyValue))
        (f : List (Option String)) (e : Err),
      (Template.add_pie_chart t name data (some f)).1 = .error e →
      e = .invalidShapePie ∨ e = .invalidValueType) ∧
    (∀ (t : Template) (name : String) (data : List (List PyValue))
        (f : List (Option String)),
      (Template.add_pie_chart t name data (some f)).1 = .ok () →
      ∃ obj, (Template.add_pie_chart t name data (some f)).2.thinkcell_objects
          = t.thinkcell_objects ++ [obj]
        ∧ obj.table.length = 1 + min data.length f.length) := by
  refine ⟨?_, ?_, ?_, ?_, ?_⟩
  · intro t name categories data f frb hne
    cases hf : data.find? (fun x => x.length != categories.length + 1) with
    | some dl =>
      rw [add_chart_eq_shape t name categories data (some f) frb dl hf]
      exact ⟨Err.invalidShapeChart, rfl, rfl⟩
    | none =>
      have hlen : (f.length != data.length) = true := by simpa using hne
      rw [add_chart_eq_fill t name categories data f frb hf hlen]
      exact ⟨Err.invalidFillChart, rfl, rfl⟩
  · intro t name data f e h
    cases hx : buildRows (data.zip (normFill (some f) data)) with
    | error e1 =>
      rw [add_table_eq_error t name data (some f) e1 hx] at h
      simp at h
      rw [← h]
      exact buildRows_error_eq _ e1 hx
    | ok rows =>
      rw [add_table_eq_ok t name data (some f) rows hx] at h
      simp at h
  · intro t name data f h
    cases hx : buildRows (data.zip (normFill (some f) data)) with
    | error e1 =>
      rw [add_table_eq_error t name data (some f) e1 hx] at h
      simp at h
    | ok rows =>
      rw [add_table_eq_ok t name data (some f) rows hx]
      refine ⟨⟨name, rows⟩, rfl, ?_⟩
      show rows.length = min data.length f.length
      rw [buildRows_ok_length _ rows hx, List.length_zip]
      rfl
  · intro t name data f e h
    cases hf : data.find? (fun x => x.length != 2) with
    | some row =>
      rw [add_pie_eq_shape t name data (some f) row hf] at h
      simp at h
      exact Or.inl h.symm
    | none =>
      cases hx : buildRows (data.zip (normFill (some f) data)) with
      | error e1 =>
        rw [add_pie_eq_error t name data (some f) e1 hf hx] at h
        simp at h
        rw [← h]
        exact Or.inr (buildRows_error_eq _ e1 hx)
      | ok rows =>
        rw [add_pie_eq_ok t name data (some f) rows hf hx] at h
        simp at h
  · intro t name data f h
    cases hf : data.find? (fun x => x.length != 2) with
    | some row =>
      rw [add_pie_eq_shape t name data (some f) row hf] at h
      simp at h
    | none =>
      cases hx : buildRows (data.zip (normFill (some f) data)) with
      | error e1 =>
        rw [add_pie_eq_error t name data (some f) e1 hf hx] at h
        simp at h
      | ok rows =>
        rw [add_pie_eq_ok t name data (some f) rows hf hx]
        refine ⟨⟨name, ([] : Row) :: rows⟩, rfl, ?_⟩
        show (([] : Row) :: rows).length = 1 + min data.length f.length
        rw [List.length_cons, buildRows_ok_length _ rows hx, List.length_zip]
        have hnf : normFill (some f) data = f := rfl
        rw [hnf]
        omega

/-- Witness for `fill_cardinality_amended`: a one-color fill against two
chart data rows raises the InvalidShape-class error. -/
theorem fill_cardinality_amended_witness :
    ∃ e, (Template.add_chart exampleTemplate "Cool Name bro" roundtripCategories
        roundtripData (some [some "#70AD47"]) true).1 = .error e
      ∧ e.isShape = true :=
  fill_cardinality_amended.1 exampleTemplate "Cool Name bro" roundtripCategories
    roundtripData [some "#70AD47"] true (by decide)

/-- C8 counterexample: `add_pie_chart` with two valid data pairs and a
one-color fill list succeeds but emits only one data row after the
leading empty row — not one row per data pair, refuting the claim's
success shape. -/
theorem add_pie_chart_fill_truncation :
    pieData.length = 2 ∧
    (Template.add_pie_chart exampleTemplate "tasty pie" pieData
        (some [some "#000000"])).1 = .ok () ∧
    (Template.add_pie_chart exampleTemplate "tasty pie" pieData
        (some [some "#000000"])).2.thinkcell_objects
      = [⟨"tasty pie",
          [[],
           [some ⟨.string "Series1", some "#000000"⟩,
            some ⟨.number (.int 90), some "#000000"⟩]]⟩] :=
  ⟨rfl, rfl, rfl⟩

/-- C8 (amended): `add_pie_chart` raises a RuntimeError-class error iff
some data row's length ≠ 2; on success it appends exactly one object
whose table is a leading empty row followed by one transformed row per
zipped (data pair, fill color) pair — one row per data pair when fill is
omitted, but only the first `len(fill)` pairs when a shorter fill list
is supplied — with each row's cells all carrying that row's fill color,
and it never inserts the `first_row_blank` row used by `add_chart`. -/
theorem add_pie_chart_amended (t : Template) (name : String)
    (data : List (List PyValue)) (fill : Option (List (Option String))) :
    ((∃ e, (Template.add_pie_chart t name data fill).1 = .error e
        ∧ e.kind = ErrKind.runtimeError) ↔ ∃ row ∈ data, row.length ≠ 2) ∧
    (∀ u, (Template.add_pie_chart t name data fill).1 = .ok u →
      ∃ rows,
        (Template.add_pie_chart t name data fill).2.thinkcell_objects
          = t.thinkcell_objects ++ [⟨name, ([] : Row) :: rows⟩]
        ∧ rows.length = min data.length (normFill fill data).length
        ∧ List.Forall₂ (fun (pr : List PyValue × Option String) (row : Row) =>
            row.length = pr.1.length ∧ ∀ x ∈ row, ∃ cl, x = some cl ∧ cl.fill = pr.2)
          (data.zip (normFill fill data)) rows) := by
  constructor
  · cases hf : data.find? (fun x => x.length != 2) with
    | some row =>
      rw [add_pie_eq_shape t name data fill row hf]
      constructor
      · intro _
        exact ⟨row, List.mem_of_find?_eq_some hf, by simpa using List.find?_some hf⟩
      · intro _
        exact ⟨Err.invalidShapePie, rfl, rfl⟩
    | none =>
      constructor
      · rintro ⟨e, he, hk⟩
        cases hx : buildRows (data.zip (normFill fill data)) with
        | error e1 =>
          rw [add_pie_eq_error t name data fill e1 hf hx] at he
          simp at he
          rw [← he] at hk
          rw [buildRows_error_eq _ e1 hx] at hk
          simp [Err.kind] at hk
        | ok rows =>
          rw [add_pie_eq_ok t name data fill rows hf hx] at he
          simp at he
      · rintro ⟨row, hrow, hne⟩
        have h1 := List.find?_eq_none.mp hf row hrow
        simp at h1
        exact absurd h1 hne
  · intro u hu
    cases hf : data.find? (fun x => x.length != 2) with
    | some row =>
      rw [add_pie_eq_shape t name data fill row hf] at hu
      simp at hu
    | none =>
      cases hx : buildRows (data.zip (normFill fill data)) with
      | error e1 =>
        rw [add_pie_eq_error t name data fill e1 hf hx] at hu
        simp at hu
      | ok rows =>
        rw [add_pie_eq_ok t name data fill rows hf hx]
        refine ⟨rows, rfl, ?_, buildRows_ok_spec _ rows hx⟩
        rw [buildRows_ok_length _ rows hx, List.length_zip]

/-- Witness for `add_pie_chart_amended`: the two-pair pie data with no
fill succeeds, emitting the leading empty row and one row per pair. -/
theorem add_pie_chart_amended_witness :
    ∃ rows,
      (Template.add_pie_chart exampleTemplate "tasty pie" pieData
          Option.none).2.thinkcell_objects
        = exampleTemplate.thinkcell_objects ++ [⟨"tasty pie", ([] : Row) :: rows⟩]
      ∧ rows.length = min pieData.length (normFill Option.none pieData).length
      ∧ List.Forall₂ (fun (pr : List PyValue × Option String) (row : Row) =>
          row.length = pr.1.length ∧ ∀ x ∈ row, ∃ cl, x = some cl ∧ cl.fill = pr.2)
        (pieData.zip (normFill Option.none pieData)) rows :=
  (add_pie_chart_amended exampleTemplate "tasty pie" pieData Option.none).2 () rfl

end ThinkcellBuilder

namespace ThinkcellBuilder

/-- Branch equation: `save_ppttc` on the success path. -/
theorem save_ppttc_eq_ok (σ : Store) (p : Presentation) (filename : String)
    (h1 : pyEndsWith filename ".ppttc" = true) (h2 : p.slides.isEmpty = false) :
    Presentation.save_ppttc σ p filename
      = .ok (true, p.slides.map (fun r => (σ.get r).serialize)) := by
  unfold Presentation.save_ppttc
  rw [h1, h2]
  rfl

/-- Unfolding equation for `_verify_template` on a string argument. -/
theorem verify_template_str (s : String) :
    Presentation.verify_template (PyValue.str s)
      = if pyEndsWith s ".pptx" = true then Except.ok s
        else Except.error Err.templateBadSuffix := rfl

/-- C6: `save_ppttc` raises a ValueError-class error when the filename
does not end in `.ppttc`; raises a ValueError-class error when the
slide list is empty; and otherwise returns success (`True`), the written
JSON array holding exactly one serialized entry per slide builder, in
insertion order (the `map` over the slide list). -/
theorem save_ppttc_spec (σ : Store) (p : Presentation) (filename : String) :
    (pyEndsWith filename ".ppttc" = false →
      ∃ e, Presentation.save_ppttc σ p filename = .error e
        ∧ e.kind = ErrKind.valueError) ∧
    (pyEndsWith filename ".ppttc" = true → p.slides = [] →
      ∃ e, Presentation.save_ppttc σ p filename = .error e
        ∧ e.kind = ErrKind.valueError) ∧
    (pyEndsWith filename ".ppttc" = true → p.slides ≠ [] →
      Presentation.save_ppttc σ p filename
        = .ok (true, p.slides.map (fun r => (σ.get r).serialize))) := by
  refine ⟨?_, ?_, ?_⟩
  · intro h
    refine ⟨Err.saveBadExtension, ?_, rfl⟩
    unfold Presentation.save_ppttc
    rw [h]
    rfl
  · intro h1 h2
    refine ⟨Err.saveNoSlides, ?_, rfl⟩
    unfold Presentation.save_ppttc
    rw [h1, h2]
    rfl
  · intro h1 h2
    have h3 : p.slides.isEmpty = false := by
      cases hs : p.slides with
      | nil => exact absurd hs h2
      | cons a l => rfl
    exact save_ppttc_eq_ok σ p filename h1 h3

/-- Witness for `save_ppttc_spec`: saving to `word.docx` raises the
extension ValueError; saving an empty presentation to `test.ppttc`
raises the no-slides ValueError; saving one slide to `test.ppttc`
returns `True` with the one-entry array. -/
theorem save_ppttc_spec_witness :
    (∃ e, Presentation.save_ppttc ⟨[exampleTemplate]⟩ ⟨[0]⟩ "word.docx" = .error e
        ∧ e.kind = ErrKind.valueError) ∧
    (∃ e, Presentation.save_ppttc ⟨[exampleTemplate]⟩ ⟨[]⟩ "test.ppttc" = .error e
        ∧ e.kind = ErrKind.valueError) ∧
    Presentation.save_ppttc ⟨[exampleTemplate]⟩ ⟨[0]⟩ "test.ppttc"
      = .ok (true, [Template.serialize exampleTemplate]) := by
  refine ⟨(save_ppttc_spec ⟨[exampleTemplate]⟩ ⟨[0]⟩ "word.docx").1 rfl,
          (save_ppttc_spec ⟨[exampleTemplate]⟩ ⟨[]⟩ "test.ppttc").2.1 rfl rfl, ?_⟩
  have h := (save_ppttc_spec ⟨[exampleTemplate]⟩ ⟨[0]⟩ "test.ppttc").2.2 rfl
    (by simp)
  simpa using h

/-- C7: `add_template` raises a TypeError-class error and leaves the
slide list unchanged when the builder's template path is not a string or
does not end in `.pptx`; when the path is a string ending in `.pptx`, it
appends the builder (by reference) to the slide list, and
`_verify_template` returns the path unchanged. -/
theorem add_template_spec (σ : Store) (p : Presentation) (r : Ref) :
    ((∀ s, (σ.get r).path ≠ PyValue.str s) →
      ∃ e, (Presentation.add_template σ p r).1 = .error e
        ∧ e.kind = ErrKind.typeError
        ∧ (Presentation.add_template σ p r).2 = p) ∧
    (∀ s, (σ.get r).path = PyValue.str s → pyEndsWith s ".pptx" = false →
      ∃ e, (Presentation.add_template σ p r).1 = .error e
        ∧ e.kind = ErrKind.typeError
        ∧ (Presentation.add_template σ p r).2 = p) ∧
    (∀ s, (σ.get r).path = PyValue.str s → pyEndsWith s ".pptx" = true →
      Presentation.add_template σ p r = (.ok (), ⟨p.slides ++ [r]⟩)
        ∧ Presentation.verify_template (PyValue.str s) = .ok s) := by
  refine ⟨?_, ?_, ?_⟩
  · intro hns
    unfold Presentation.add_template Presentation.verify_template
    cases hp : (σ.get r).path
    case str s => exact absurd hp (hns s)
    all_goals exact ⟨Err.templateNotString, rfl, rfl, rfl⟩
  · intro s hp hsuf
    have hv : Presentation.verify_template (PyValue.str s)
        = .error .templateBadSuffix := by
      rw [verify_template_str s, hsuf]
      rfl
    unfold Presentation.add_template
    rw [hp, hv]
    exact ⟨Err.templateBadSuffix, rfl, rfl, rfl⟩
  · intro s hp hsuf
    have hv : Presentation.verify_template (PyValue.str s) = .ok s := by
      rw [verify_template_str s, hsuf]
      rfl
    unfold Presentation.add_template
    rw [hp, hv]
    exact ⟨rfl, rfl⟩

/-- Witness for `add_template_spec`: adding the builder for
`example.pptx` to an empty presentation succeeds and appends it. -/
theorem add_template_spec_witness :
    Presentation.add_template ⟨[exampleTemplate]⟩ ⟨[]⟩ 0 = (.ok (), ⟨[0]⟩)
    ∧ Presentation.verify_template (PyValue.str "example.pptx")
        = .ok "example.pptx" :=
  (add_template_spec ⟨[exampleTemplate]⟩ ⟨[]⟩ 0).2.2 "example.pptx" rfl rfl

/-- C9: slide builders are shared by reference, not copied.  After a
successful `add_template`, overwriting the referenced builder's state
with any `t1` (e.g. the result of a later `add_*` call on it) and then
saving serializes `t1` — the builder's state at save time, not its state
when it was added. -/
theorem builder_shared_by_reference (σ : Store) (p : Presentation) (r : Ref)
    (t1 : Template) (filename : String)
    (hr : r < σ.heap.length)
    (hadd : (Presentation.add_template σ p r).1 = .ok ())
    (hfn : pyEndsWith filename ".ppttc" = true) :
    ∃ out,
      Presentation.save_ppttc (σ.update r t1) (Presentation.add_template σ p r).2
          filename
        = .ok (true, out)
      ∧ out.getLast? = some (Template.serialize t1)
      ∧ out.length = p.slides.length + 1 := by
  have hp2 : (Presentation.add_template σ p r).2 = ⟨p.slides ++ [r]⟩ := by
    unfold Presentation.add_template at hadd ⊢
    cases hv : Presentation.verify_template (σ.get r).path with
    | error e =>
      rw [hv] at hadd
      simp at hadd
    | ok s => rfl
  rw [hp2]
  refine ⟨(p.slides ++ [r]).map (fun j => ((σ.update r t1).get j).serialize),
    ?_, ?_, ?_⟩
  · exact save_ppttc_eq_ok (σ.update r t1) ⟨p.slides ++ [r]⟩ filename hfn
      (by cases p.slides <;> rfl)
  · rw [List.map_append]
    show ((p.slides.map fun j => ((σ.update r t1).get j).serialize)
        ++ [((σ.update r t1).get r).serialize]).getLast? = some t1.serialize
    rw [getLast?_concat_eq]
    have hget : (σ.update r t1).get r = t1 := by
      unfold Store.update Store.get
      exact getD_set_self σ.heap r t1 default hr
    rw [hget]
  · simp

/-- Witness for `builder_shared_by_reference`: add the `example.pptx`
builder, then mutate it by a further `add_textfield`; the saved output's
entry is the mutated serialization. -/
theorem builder_shared_by_reference_witness :
    ∃ out,
      Presentation.save_ppttc ((⟨[exampleTemplate]⟩ : Store).update 0 mutatedTemplate)
          (Presentation.add_template ⟨[exampleTemplate]⟩ ⟨[]⟩ 0).2 "test.ppttc"
        = .ok (true, out)
      ∧ out.getLast? = some (Template.serialize mutatedTemplate)
      ∧ out.length = 1 :=
  builder_shared_by_reference ⟨[exampleTemplate]⟩ ⟨[]⟩ 0 mutatedTemplate
    "test.ppttc" (by decide) rfl rfl

end ThinkcellBuilder
